import Mathlib

/-!
Shallow embedding of the `nativescript-cloud` plugin pieces under scrutiny:

* `src/lib/services/cloud-codesign-service.ts` — `CloudCodesignService` with
  `generateCodesignFiles`, `executeGeneration`, `getServerResults`,
  `getServerOperationOutputDirectory`, `validateParameteres` and
  `prepareCodesignRequest`;
* `src/lib/commands/build-command-helper.ts` — `BuildCommandHelper` with
  `getCloudBuildData` and `buildForPublishingPlatform`.

JavaScript `undefined`-able fields become `Option`, JS falsiness of strings and
of optional lists is spelled out as explicit helpers, thrown errors become
`Except.error` of a `JsError` record (mirroring the mutable `message`/`stderr`/
`buildId` properties), and the collaborators inherited from the missing
`CloudService` base class (project-data lookup, server submit, operation poll,
S3 fetches, artifact download) are supplied by an environment record holding
the outcome each produces on one run.  Each run also yields its ordered list of
observable events (network calls, the artifact download, log lines with their
level), so that claims about "never invoked", "zero HTTP requests" and
"trace-level only" can be stated.
-/

/-- JS substring containment, as tested by `errText.indexOf(pat) > -1`:
`pat` occurs contiguously inside `s`. -/
def strContains (s pat : String) : Prop := pat.data <:+: s.data

instance strContainsDecidable (s pat : String) : Decidable (strContains s pat) :=
  List.decidableInfix pat.data s.data

/-- Executable form of `strContains`. -/
def strContainsB (s pat : String) : Bool := decide (strContains s pat)

/-- JS falsiness of an optional string: `undefined` and the empty string are
falsy, every other string is truthy. -/
def jsStrFalsy : Option String → Bool
  | none => true
  | some s => s == ""

/-- JS `x || ""` on an optional error text (`codesignResult.errors || ""`). -/
def jsOrEmpty : Option String → String
  | none => ""
  | some s => s

/-- Modelled from the spec: the missing `constants` module's `DISPOSITIONS`
table.  The spec names CERTIFICATE, PROVISION and PACKAGE as distinct
enum-like tags classifying remote build output files; the concrete strings
below stand in for the unexported values, distinctness being all that is
used. -/
structure DispositionsT where
  CERTIFICATE : String
  PROVISION : String
  PACKAGE : String

def DISPOSITIONS : DispositionsT :=
  { CERTIFICATE := "Certificate", PROVISION := "Provision", PACKAGE := "Package" }

/-- Modelled from the spec: the missing `constants` module's
`CODESIGN_FILES_DIR_NAME`, the fixed directory name under the project dir
that receives downloaded codesign files. -/
def CODESIGN_FILES_DIR_NAME : String := "codesign-files"

/-- One item of the server result manifest (`IServerItem`): its disposition
tag and the remote location of the artifact, per the spec's BuildItem shape. -/
structure ServerItem where
  disposition : String
  url : String
  deriving DecidableEq, Repr

/-- The result manifest fetched from `resultUrl` (`IBuildServerResult`):
an optional `buildItems` list plus optional `errors`/`stderr`/`stdout`
texts; `none` models a JS `undefined` field. -/
structure BuildServerResult where
  buildItems : Option (List ServerItem)
  errors : Option String
  stderr : Option String
  stdout : Option String
  deriving DecidableEq, Repr

/-- The caller-supplied codesign parameters (`ICodesignData`). -/
structure CodesignData where
  username : Option String
  password : Option String
  clean : Option Bool
  platform : String
  sharedCloud : Option Bool
  attachedDevices : List String
  deriving DecidableEq, Repr

/-- A thrown JS error as callers observe it: its message plus the `stderr`
and `buildId` properties the service attaches (`IStdError`, `err.buildId`). -/
structure JsError where
  message : String
  stderr : Option String := none
  buildId : Option String := none
  deriving DecidableEq, Repr

/-- JS test `!codesignResult.buildItems || !codesignResult.buildItems.length`. -/
def jsItemsEmpty : Option (List ServerItem) → Bool
  | none => true
  | some l => l.length == 0

/-- JS truthiness of an array value: an array is an object and hence always
truthy, regardless of emptiness. -/
def jsArrayTruthy (_l : List ServerItem) : Bool := true

/-- The predicate `_.filter` applies in `getServerResults`. -/
def isCodesignDisposition (b : ServerItem) : Bool :=
  b.disposition == DISPOSITIONS.CERTIFICATE || b.disposition == DISPOSITIONS.PROVISION

/-- `getServerResults`: filters the manifest's `buildItems` down to
CERTIFICATE/PROVISION items and calls `$errors.failWithoutHelp` when the
filter result is falsy.  Lodash `_.filter` over an `undefined` collection
yields an empty array, embedded here as `Option.getD []`. -/
def getServerResults (codesignResult : BuildServerResult) : Except JsError (List ServerItem) :=
  let result := (codesignResult.buildItems.getD []).filter isCodesignDisposition
  if !jsArrayTruthy result then
    .error { message := "No item with disposition " ++ DISPOSITIONS.CERTIFICATE ++ " or "
      ++ DISPOSITIONS.PROVISION ++ " found in the server result items." }
  else
    .ok result

/-- Options handed to `getServerOperationOutputDirectory` and to the
artifact download (`IOutputDirectoryOptions`). -/
structure OutputDirectoryOptions where
  projectDir : String
  platform : String
  emulator : Bool
  deriving DecidableEq, Repr

/-- Node `path.join` on three separator-free segments. -/
def pathJoin3 (a b c : String) : String := a ++ "/" ++ b ++ "/" ++ c

/-- `getServerOperationOutputDirectory`: joins the project dir, the
codesign-files directory name constant and the lower-cased platform. -/
def getServerOperationOutputDirectory (options : OutputDirectoryOptions) : String :=
  pathJoin3 options.projectDir CODESIGN_FILES_DIR_NAME options.platform.toLower

/-- Message of the `$errors.failWithoutHelp` call for missing codesign data. -/
def missingCodesignDataMsg : String :=
  "Codesign failed. Reason is missing code sign data. Apple Id and Apple Id password are required.."

/-- Message of the `$errors.failWithoutHelp` call for a falsy project dir. -/
def invalidProjectPathMsg : String :=
  "Codesign failed. Reason is invalid project path."

/-- `validateParameteres`: fails when `codesignData` is falsy or its
`username` or `password` is falsy, then when `projectDir` is falsy
(`failWithoutHelp` throws, so the first failing check wins). -/
def validateParameteres (codesignData : Option CodesignData) (projectDir : String) :
    Except JsError Unit :=
  match codesignData with
  | none => .error { message := missingCodesignDataMsg }
  | some cd =>
    if jsStrFalsy cd.username || jsStrFalsy cd.password then
      .error { message := missingCodesignDataMsg }
    else if projectDir == "" then
      .error { message := invalidProjectPathMsg }
    else
      .ok ()

/-- Project metadata returned by `$projectDataService.getProjectData`. -/
structure ProjectData where
  projectDir : String
  projectId : String
  projectName : String
  deriving DecidableEq, Repr

/-- The response of the server submit call (`IServerResponse`). -/
structure ServerResponse where
  resultUrl : String
  deriving DecidableEq, Repr

/-- The request payload built by `prepareCodesignRequest`
(`ICodeSignRequestData`). -/
structure CodeSignRequestData where
  buildId : String
  appId : String
  appName : String
  clean : Option Bool
  username : Option String
  password : Option String
  sharedCloud : Option Bool
  devices : List String
  deriving DecidableEq, Repr

/-- The value `generateCodesignFiles` resolves with (`ICodesignResultData`). -/
structure CodesignResultData where
  buildId : String
  stderr : Option String
  stdout : Option String
  fullOutput : String
  outputFilesPaths : List String
  deriving DecidableEq, Repr

/-- The environment of one `generateCodesignFiles` run: the collaborators'
and the missing `CloudService` base class's behavior — project-data lookup,
the project-name sanitizer, the server submit call
(`$nsCloudServerBuildService.generateCodesignFiles`), the poll of the
started operation (`waitForServerOperationToFinish`), the S3 object and
content fetches, and the artifact download (`downloadServerResults`) — each
given by the outcome it produces on this run. -/
structure CodesignEnv where
  getProjectData : String → ProjectData
  sanitizeName : String → String
  submitResult : Except JsError ServerResponse
  waitResult : Except JsError Unit
  s3Object : String → Except JsError BuildServerResult
  downloadResultsOutcome : Except JsError (List String)
  s3Content : String → Except JsError String

/-- Observable effects of one run, in order: the network calls, the artifact
download, and the log lines with their level. -/
inductive Event where
  | httpSubmit (request : CodeSignRequestData)
  | waitForOperation
  | fetchS3Object (url : String)
  | downloadResults (options : OutputDirectoryOptions)
  | fetchS3Content (url : String)
  | logInfo (msg : String)
  | logTrace (msg : String)
  deriving DecidableEq, Repr

/-- The fixed `codesignInformationString` of `executeGeneration`. -/
def codesignInformationString : String :=
  "generation of iOS certificate and provision files"

/-- The sanitized replacement text used when the manifest's errors mention
"403 Forbidden". -/
def sanitizedUnavailableMsg : String :=
  "The Code Signing Assistance service is temporary unavailable. Please try again later."

/-- The wrapping applied to the error text of a failed codesign run. -/
def codesignFailedReasonMsg (errText : String) : String :=
  "Codesign failed. Reason is: " ++ errText ++ "."

/-- `prepareCodesignRequest`: assembles the request payload from the build id,
the codesign data and the project data (name sanitized by `$projectHelper`). -/
def prepareCodesignRequest (env : CodesignEnv) (buildId : String)
    (codesignData : CodesignData) (projectData : ProjectData) : CodeSignRequestData :=
  { buildId := buildId
    appId := projectData.projectId
    appName := env.sanitizeName projectData.projectName
    clean := codesignData.clean
    username := codesignData.username
    password := codesignData.password
    sharedCloud := codesignData.sharedCloud
    devices := codesignData.attachedDevices }

/-- `executeGeneration`: submits the codesign request, polls the started
operation — swallowing any poll failure after trace-logging it — fetches the
result manifest from `resultUrl`, raises the codesign-failed error when the
manifest has no build items (sanitizing a "403 Forbidden" text and keeping
the raw text at trace level), and otherwise downloads the artifacts and
fetches the full output.  Returns the ordered event trace together with the
JS outcome. -/
def executeGeneration (env : CodesignEnv) (codesignData : CodesignData)
    (projectDir : String) (buildId : String) :
    List Event × Except JsError CodesignResultData :=
  let projectData := env.getProjectData projectDir
  let codesignRequest := prepareCodesignRequest env buildId codesignData projectData
  let ev0 : List Event := [.logInfo ("Starting " ++ codesignInformationString ++ "."),
    .httpSubmit codesignRequest]
  match env.submitResult with
  | .error e => (ev0, .error e)
  | .ok codesignResponse =>
    let ev1 := ev0 ++ [.logTrace ("Codesign response: " ++ reprStr codesignResponse),
      .waitForOperation]
    let ev2 := ev1 ++ (match env.waitResult with
      | .error ex => [Event.logTrace ("Codesign generation failed with err: " ++ ex.message)]
      | .ok _ => [])
    let ev3 := ev2 ++ [.fetchS3Object codesignResponse.resultUrl]
    match env.s3Object codesignResponse.resultUrl with
    | .error e => (ev3, .error e)
    | .ok codesignResult =>
      let ev4 := ev3 ++ [.logTrace "Codesign result:", .logTrace (reprStr codesignResult)]
      if jsItemsEmpty codesignResult.buildItems then
        -- Something failed.
        let errText := jsOrEmpty codesignResult.errors
        if strContainsB errText "403 Forbidden" then
          (ev4 ++ [.logTrace ("Codesign errors: " ++ errText)],
            .error { message := codesignFailedReasonMsg sanitizedUnavailableMsg,
                     stderr := codesignResult.stderr })
        else
          (ev4, .error { message := codesignFailedReasonMsg errText,
                         stderr := codesignResult.stderr })
      else
        let outputOptions : OutputDirectoryOptions :=
          { projectDir := projectData.projectDir
            platform := codesignData.platform
            emulator := false }
        let ev5 := ev4 ++ [.logInfo ("Finished " ++ codesignInformationString
            ++ " successfully. Downloading result..."),
          .downloadResults outputOptions]
        match env.downloadResultsOutcome with
        | .error e => (ev5, .error e)
        | .ok localCodesignResults =>
          let ev6 := ev5 ++ [.logInfo ("The result of " ++ codesignInformationString
              ++ " successfully downloaded. Codesign files paths: "
              ++ String.intercalate "," localCodesignResults),
            .fetchS3Content codesignResponse.resultUrl]
          match env.s3Content codesignResponse.resultUrl with
          | .error e => (ev6, .error e)
          | .ok fullOutput =>
            (ev6, .ok { buildId := buildId
                        stderr := codesignResult.stderr
                        stdout := codesignResult.stdout
                        fullOutput := fullOutput
                        outputFilesPaths := localCodesignResults })

/-- `generateCodesignFiles`: validates the parameters, defaults `clean` to
`true` when it is `undefined`, runs `executeGeneration` under the freshly
generated `buildId` (modelled as the `buildId` argument, the value
`uuid.v4()` returned on this run), and annotates every error escaping the
execution with that `buildId` before rethrowing it. -/
def generateCodesignFiles (env : CodesignEnv) (codesignData : Option CodesignData)
    (projectDir : String) (buildId : String) :
    List Event × Except JsError CodesignResultData :=
  match validateParameteres codesignData projectDir with
  | .error e => ([], .error e)
  | .ok _ =>
    match codesignData with
    | none => ([], .error { message := missingCodesignDataMsg })
    | some cd =>
      let cd := { cd with clean := some (cd.clean.getD true) }
      match executeGeneration env cd projectDir buildId with
      | (events, .ok serverResult) => (events, .ok serverResult)
      | (events, .error err) => (events, .error { err with buildId := some buildId })

/-- Modelled from the spec: the missing `constants` module's
`CLOUD_BUILD_CONFIGURATIONS` table naming the two build configurations. -/
structure CloudBuildConfigurationsT where
  DEBUG : String
  RELEASE : String

def CLOUD_BUILD_CONFIGURATIONS : CloudBuildConfigurationsT :=
  { DEBUG := "Debug", RELEASE := "Release" }

/-- The CLI options consumed by `BuildCommandHelper` (`ICloudOptions`);
`localOpt` embeds the `local` flag, whose name Lean reserves. -/
structure CloudOptions where
  localOpt : Bool
  release : Bool
  clean : Bool
  bundle : Bool
  emulator : Bool
  env : String
  keyStorePath : Option String
  keyStorePassword : Option String
  keyStoreAlias : Option String
  keyStoreAliasPassword : Option String
  certificate : Option String
  certificatePassword : Option String
  provision : Option String
  teamId : Option String
  device : Option String
  path : Option String
  platformTemplate : Option String
  accountId : String
  deriving DecidableEq, Repr

/-- The project settings block assembled by `getCloudBuildData`
(`INSCloudProjectSettings`); `nativescriptData` is the opaque `nativescript`
section of `package.json`. -/
structure ProjectSettings where
  nativescriptData : String
  projectDir : String
  projectId : String
  projectName : String
  bundle : Bool
  clean : Bool
  env : String
  deriving DecidableEq, Repr

/-- Android part of the build data. -/
structure AndroidBuildData where
  pathToCertificate : String
  certificatePassword : Option String
  deriving DecidableEq, Repr

/-- iOS part of the build data. -/
structure IOSBuildData where
  pathToCertificate : String
  certificatePassword : Option String
  pathToProvision : String
  buildForDevice : Bool
  deriving DecidableEq, Repr

/-- The value `getCloudBuildData` returns (`IBuildData`). -/
structure BuildData where
  projectSettings : ProjectSettings
  platform : String
  buildConfiguration : String
  androidBuildData : AndroidBuildData
  iOSBuildData : IOSBuildData
  deriving DecidableEq, Repr

/-- The argument record of the local build branch of
`buildForPublishingPlatform`. -/
structure LocalBuildInfo where
  release : Bool
  buildForDevice : Bool
  clean : Bool
  teamId : Option String
  bundle : Bool
  device : Option String
  projectDir : Option String
  provision : Option String
  keyStoreAlias : Option String
  keyStoreAliasPassword : Option String
  keyStorePassword : Option String
  keyStorePath : Option String
  env : String
  deriving DecidableEq, Repr

/-- The arguments `buildForPublishingPlatform` passes to
`$nsCloudBuildService.build`. -/
structure CloudBuildInvocation where
  projectSettings : ProjectSettings
  platform : String
  buildConfiguration : String
  accountId : String
  androidBuildData : AndroidBuildData
  iOSBuildData : IOSBuildData
  deriving DecidableEq, Repr

/-- One build submission performed by `buildForPublishingPlatform`: either
the local build with its argument record or the cloud build invocation. -/
inductive BuildSubmission where
  | localBuild (info : LocalBuildInfo) (platform : String) (platformTemplate : Option String)
  | cloudBuild (invocation : CloudBuildInvocation)
  deriving DecidableEq, Repr

/-- The environment of `BuildCommandHelper`: platform validation and
classification (`$mobileHelper`), `path.resolve`, the project data read at
construction, the `nativescript` section of the project's `package.json`,
`getProjectId`, and the package paths the two build services return. -/
structure BuildCommandEnv where
  validatePlatformName : String → Except JsError String
  isAndroidPlatform : String → Bool
  isiOSPlatform : String → Bool
  platformNames : List String
  resolvePath : String → String
  nativescriptData : String
  projectDir : String
  projectId : String → String
  projectName : String
  localBuildPath : LocalBuildInfo → String → Option String → String
  cloudBuildPath : CloudBuildInvocation → String

/-- JS ternary `opt ? path.resolve(opt) : ""` on an optional string option. -/
def jsResolveOrEmpty (resolvePath : String → String) (o : Option String) : String :=
  if jsStrFalsy o then "" else resolvePath (o.getD "")

/-- `getCloudBuildData`: validates the platform name, resolves the
certificate path per platform (failing for a platform that is neither
Android nor iOS), resolves the provision path, assembles the project
settings, and derives the build configuration from the `release` option. -/
def getCloudBuildData (env : BuildCommandEnv) (opts : CloudOptions) (platformArg : String) :
    Except JsError BuildData :=
  match env.validatePlatformName platformArg with
  | .error e => .error e
  | .ok platform =>
    match (if env.isAndroidPlatform platform then
        Except.ok (jsResolveOrEmpty env.resolvePath opts.keyStorePath)
      else if env.isiOSPlatform platform then
        Except.ok (jsResolveOrEmpty env.resolvePath opts.certificate)
      else
        Except.error { message := "Currently only "
          ++ String.intercalate " " env.platformNames ++ " platforms are supported." }) with
    | .error e => .error e
    | .ok pathToCertificate =>
      let pathToProvision := jsResolveOrEmpty env.resolvePath opts.provision
      let projectId := env.projectId platform.toLower
      let projectSettings : ProjectSettings :=
        { nativescriptData := env.nativescriptData
          projectDir := env.projectDir
          projectId := projectId
          projectName := env.projectName
          bundle := opts.bundle
          clean := opts.clean
          env := opts.env }
      let buildConfiguration :=
        if opts.release then CLOUD_BUILD_CONFIGURATIONS.RELEASE
        else CLOUD_BUILD_CONFIGURATIONS.DEBUG
      .ok { projectSettings := projectSettings
            platform := platform
            buildConfiguration := buildConfiguration
            androidBuildData :=
              { pathToCertificate := pathToCertificate
                certificatePassword := opts.keyStorePassword }
            iOSBuildData :=
              { pathToCertificate := pathToCertificate
                certificatePassword := opts.certificatePassword
                pathToProvision := pathToProvision
                buildForDevice := !opts.emulator } }

/-- `buildForPublishingPlatform`: validates the platform name, then either
runs the local build with `release`/`buildForDevice` forced to `true`, or
takes `getCloudBuildData`, overwrites its build configuration with RELEASE,
and submits the cloud build.  Returns the submissions performed together
with the package path outcome. -/
def buildForPublishingPlatform (env : BuildCommandEnv) (opts : CloudOptions)
    (platformArg : String) : List BuildSubmission × Except JsError String :=
  match env.validatePlatformName platformArg with
  | .error e => ([], .error e)
  | .ok platform =>
    if opts.localOpt then
      let info : LocalBuildInfo :=
        { release := true
          buildForDevice := true
          clean := opts.clean
          teamId := opts.teamId
          bundle := opts.bundle
          device := opts.device
          projectDir := opts.path
          provision := opts.provision
          keyStoreAlias := opts.keyStoreAlias
          keyStoreAliasPassword := opts.keyStoreAliasPassword
          keyStorePassword := opts.keyStorePassword
          keyStorePath := opts.keyStorePath
          env := opts.env }
      ([.localBuild info platform opts.platformTemplate],
        .ok (env.localBuildPath info platform opts.platformTemplate))
    else
      match getCloudBuildData env opts platform with
      | .error e => ([], .error e)
      | .ok buildData0 =>
        let buildData := { buildData0 with
          buildConfiguration := CLOUD_BUILD_CONFIGURATIONS.RELEASE }
        let invocation : CloudBuildInvocation :=
          { projectSettings := buildData.projectSettings
            platform := buildData.platform
            buildConfiguration := buildData.buildConfiguration
            accountId := opts.accountId
            androidBuildData := buildData.androidBuildData
            iOSBuildData := buildData.iOSBuildData }
        ([.cloudBuild invocation], .ok (env.cloudBuildPath invocation))

/-- Sample project data used by the concrete runs below. -/
def sampleProjectData (projectDir : String) : ProjectData :=
  { projectDir := projectDir, projectId := "org.nativescript.app", projectName := "app" }

/-- Sample valid codesign data (credentials present, `clean` undefined). -/
def cdSample : CodesignData :=
  { username := some "user@example.com"
    password := some "secret"
    clean := none
    platform := "iOS"
    sharedCloud := none
    attachedDevices := [] }

/-- A failed manifest whose errors text mentions "403 Forbidden". -/
def manifest403 : BuildServerResult :=
  { buildItems := some [], errors := some "403 Forbidden", stderr := some "server stderr", stdout := none }

/-- A failed manifest with a plain errors text. -/
def manifestPlainFail : BuildServerResult :=
  { buildItems := none, errors := some "Invalid Apple credentials", stderr := none, stdout := none }

/-- A successful manifest with one certificate and one provision item. -/
def manifestOk : BuildServerResult :=
  { buildItems := some [{ disposition := "Certificate", url := "u1" },
      { disposition := "Provision", url := "u2" }]
    errors := none
    stderr := none
    stdout := some "done" }

/-- A concrete environment: the submit succeeds, the poll behaves as given,
the manifest fetch returns the given manifest, artifacts download to two
fixed paths. -/
def mkCodesignEnv (waitResult : Except JsError Unit) (manifest : BuildServerResult) :
    CodesignEnv :=
  { getProjectData := sampleProjectData
    sanitizeName := fun n => n
    submitResult := .ok { resultUrl := "https://s3/result.json" }
    waitResult := waitResult
    s3Object := fun _ => .ok manifest
    downloadResultsOutcome := .ok ["cert.p12", "profile.mobileprovision"]
    s3Content := fun _ => .ok "full output" }

/-- Sample manifest items spanning all three dispositions. -/
def sampleMixedItems : List ServerItem :=
  [{ disposition := DISPOSITIONS.CERTIFICATE, url := "c" },
    { disposition := DISPOSITIONS.PACKAGE, url := "p" },
    { disposition := DISPOSITIONS.PROVISION, url := "m" }]

/-- A sample manifest whose items span all three dispositions. -/
def sampleMixedManifest : BuildServerResult :=
  { buildItems := some sampleMixedItems
    errors := none
    stderr := none
    stdout := none }

/-- A sample polling failure (the poll budget exhausted). -/
def timeoutErr : JsError := { message := "Codesign generation did not complete in time." }

/-- Sample environment and options for the build-command helper: an iOS
project with `release` and `local` both off. -/
def buildEnvSample : BuildCommandEnv :=
  { validatePlatformName := fun p =>
      if p == "ios" || p == "iOS" then .ok "iOS" else .error { message := "Invalid platform." }
    isAndroidPlatform := fun p => p == "Android"
    isiOSPlatform := fun p => p == "iOS"
    platformNames := ["iOS", "Android"]
    resolvePath := fun p => "/abs/" ++ p
    nativescriptData := "nsdata"
    projectDir := "/home/proj"
    projectId := fun _ => "org.nativescript.app"
    projectName := "app"
    localBuildPath := fun _ _ _ => "/local/pkg.ipa"
    cloudBuildPath := fun _ => "https://qr/pkg.ipa" }

def optsSample : CloudOptions :=
  { localOpt := false
    release := false
    clean := true
    bundle := false
    emulator := false
    env := ""
    keyStorePath := none
    keyStorePassword := none
    keyStoreAlias := none
    keyStoreAliasPassword := none
    certificate := some "cert.p12"
    certificatePassword := some "pw"
    provision := some "prov"
    teamId := none
    device := none
    path := none
    platformTemplate := none
    accountId := "acc-1" }

/-- The project settings of `bdSample`. -/
def psSample : ProjectSettings :=
  { nativescriptData := "nsdata"
    projectDir := "/home/proj"
    projectId := "org.nativescript.app"
    projectName := "app"
    bundle := false
    clean := true
    env := "" }

/-- The build data `getCloudBuildData` produces for `buildEnvSample` and
`optsSample` (derived configuration: DEBUG, since `release` is off). -/
def bdSample : BuildData :=
  { projectSettings := psSample
    platform := "iOS"
    buildConfiguration := CLOUD_BUILD_CONFIGURATIONS.DEBUG
    androidBuildData := { pathToCertificate := "/abs/cert.p12", certificatePassword := none }
    iOSBuildData :=
      { pathToCertificate := "/abs/cert.p12"
        certificatePassword := some "pw"
        pathToProvision := "/abs/prov"
        buildForDevice := true } }

/-- A wrapped text contains the text between its prefix and suffix. -/
theorem strContains_wrap (a t b : String) : strContains (a ++ t ++ b) t :=
  ⟨a.data, b.data, by simp [String.data_append]⟩

/-- Containment through an intermediate string. -/
theorem strContains_trans {s mid pat : String} (h1 : strContains mid pat)
    (h2 : strContains s mid) : strContains s pat :=
  List.IsInfix.trans h1 h2

/-- The codesign-failed wrapper contains its reason text. -/
theorem codesignFailedReasonMsg_contains (errText : String) :
    strContains (codesignFailedReasonMsg errText) errText :=
  strContains_wrap "Codesign failed. Reason is: " errText "."

/-- A string is not contained in a string missing one of its characters. -/
theorem not_strContains_of_mem {s t : String} (c : Char) (hc : c ∈ t.data)
    (hs : c ∉ s.data) : ¬ strContains s t :=
  fun h => hs (List.IsInfix.subset h hc)

/-- C6: for every server result, the failure branch of `getServerResults` is
unreachable — the lodash filter result is an array, which is always truthy, so
the falsiness guard never fires and the filtered list is always returned. -/
theorem getServerResults_total (codesignResult : BuildServerResult) :
    getServerResults codesignResult =
      .ok ((codesignResult.buildItems.getD []).filter isCodesignDisposition) := by
  simp [getServerResults, jsArrayTruthy]

/-- C7: `getServerResults` returns exactly those `buildItems` whose disposition
is CERTIFICATE or PROVISION — any other disposition, e.g. PACKAGE, is excluded —
and the returned items form a sublist of the manifest's items, i.e. they keep
their relative order. -/
theorem getServerResults_filter_order (codesignResult : BuildServerResult)
    (items : List ServerItem) (h : codesignResult.buildItems = some items) :
    ∃ res, getServerResults codesignResult = .ok res ∧
      res.Sublist items ∧
      (∀ b, b ∈ res ↔ b ∈ items ∧
        (b.disposition = DISPOSITIONS.CERTIFICATE ∨ b.disposition = DISPOSITIONS.PROVISION)) ∧
      ∀ b, b ∈ items → b.disposition = DISPOSITIONS.PACKAGE → b ∉ res := by
  refine ⟨items.filter isCodesignDisposition, ?_, List.filter_sublist items, ?_, ?_⟩
  · simp [getServerResults, jsArrayTruthy, h]
  · intro b
    simp [List.mem_filter, isCodesignDisposition]
  · intro b _ hb hmem
    rw [List.mem_filter] at hmem
    simp only [isCodesignDisposition, hb] at hmem
    exact absurd hmem.2 (by decide)

theorem getServerResults_filter_order_witness :
    ∃ res, getServerResults sampleMixedManifest = .ok res ∧
      res.Sublist sampleMixedItems ∧
      (∀ b, b ∈ res ↔ b ∈ sampleMixedItems ∧
        (b.disposition = DISPOSITIONS.CERTIFICATE ∨ b.disposition = DISPOSITIONS.PROVISION)) ∧
      ∀ b, b ∈ sampleMixedItems → b.disposition = DISPOSITIONS.PACKAGE → b ∉ res :=
  getServerResults_filter_order sampleMixedManifest sampleMixedItems rfl

/-- C8: for every options value, `getServerOperationOutputDirectory` returns
the join of the project dir, the codesign-files directory name constant and the
lower-cased platform, and two calls with the same `projectDir` and `platform`
yield the same path. -/
theorem getServerOperationOutputDirectory_det (o o' : OutputDirectoryOptions)
    (h1 : o.projectDir = o'.projectDir) (h2 : o.platform = o'.platform) :
    getServerOperationOutputDirectory o =
      pathJoin3 o.projectDir CODESIGN_FILES_DIR_NAME o.platform.toLower ∧
    getServerOperationOutputDirectory o = getServerOperationOutputDirectory o' := by
  constructor
  · rfl
  · simp [getServerOperationOutputDirectory, h1, h2]

theorem getServerOperationOutputDirectory_det_witness :
    getServerOperationOutputDirectory
        { projectDir := "/home/proj", platform := "iOS", emulator := false } =
      pathJoin3 "/home/proj" CODESIGN_FILES_DIR_NAME (String.toLower "iOS") ∧
    getServerOperationOutputDirectory
        { projectDir := "/home/proj", platform := "iOS", emulator := false } =
      getServerOperationOutputDirectory
        { projectDir := "/home/proj", platform := "iOS", emulator := true } :=
  getServerOperationOutputDirectory_det _ _ rfl rfl

theorem executeGeneration_buildId (env : CodesignEnv) (cd : CodesignData)
    (projectDir buildId : String) :
    (∀ req, Event.httpSubmit req ∈ (executeGeneration env cd projectDir buildId).1 →
      req.buildId = buildId) ∧
    (∀ r, (executeGeneration env cd projectDir buildId).2 = .ok r → r.buildId = buildId) := by
  simp only [executeGeneration]
  repeat' split
  all_goals simp [prepareCodesignRequest]

theorem executeGeneration_trace_head (env : CodesignEnv) (cd : CodesignData)
    (projectDir buildId : String) :
    ∃ rest, (executeGeneration env cd projectDir buildId).1 =
      Event.logInfo ("Starting " ++ codesignInformationString ++ ".") ::
      Event.httpSubmit (prepareCodesignRequest env buildId cd (env.getProjectData projectDir)) ::
      rest := by
  simp only [executeGeneration]
  repeat' split
  all_goals exact ⟨_, rfl⟩

theorem generateCodesignFiles_valid_unfold (env : CodesignEnv) (cd : CodesignData)
    (projectDir buildId : String)
    (hv : validateParameteres (some cd) projectDir = .ok ()) :
    generateCodesignFiles env (some cd) projectDir buildId =
      ((executeGeneration env { cd with clean := some (cd.clean.getD true) } projectDir buildId).1,
        match (executeGeneration env { cd with clean := some (cd.clean.getD true) } projectDir buildId).2 with
        | .ok r => .ok r
        | .error err => .error { err with buildId := some buildId }) := by
  simp only [generateCodesignFiles, hv]
  cases hx : executeGeneration env { cd with clean := some (cd.clean.getD true) } projectDir buildId with
  | mk events res =>
    cases res <;> rfl

theorem executeGeneration_result_wait_independent (env : CodesignEnv) (cd : CodesignData)
    (projectDir buildId : String) (w : Except JsError Unit) :
    (executeGeneration { env with waitResult := w } cd projectDir buildId).2 =
      (executeGeneration env cd projectDir buildId).2 := by
  simp only [executeGeneration]
  rcases hs : env.submitResult with e | resp <;> simp only [hs]
  rcases hm : env.s3Object resp.resultUrl with e2 | manifest <;> simp only [hm]
  by_cases hempty : jsItemsEmpty manifest.buildItems = true <;> simp only [hempty]
  · by_cases h403 : strContainsB (jsOrEmpty manifest.errors) "403 Forbidden" = true <;>
      simp [h403]
  · rcases hd : env.downloadResultsOutcome with e3 | paths <;> simp only [hd] <;>
      [skip; rcases hc : env.s3Content resp.resultUrl with e4 | out <;> simp only [hc]] <;>
      simp [hempty]

/-- C5: once validation passes, the single `buildId` of the run is carried
unchanged by the submitted request, every error thrown out of
`generateCodesignFiles` is annotated with that same `buildId` before being
rethrown, and a successful result reports the same `buildId`. -/
theorem generateCodesignFiles_buildId_invariant (env : CodesignEnv) (cd : CodesignData)
    (projectDir buildId : String)
    (hv : validateParameteres (some cd) projectDir = .ok ()) :
    (∀ req, Event.httpSubmit req ∈ (generateCodesignFiles env (some cd) projectDir buildId).1 →
      req.buildId = buildId) ∧
    (∀ e, (generateCodesignFiles env (some cd) projectDir buildId).2 = .error e →
      e.buildId = some buildId) ∧
    (∀ r, (generateCodesignFiles env (some cd) projectDir buildId).2 = .ok r →
      r.buildId = buildId) := by
  have hx := executeGeneration_buildId env { cd with clean := some (cd.clean.getD true) }
    projectDir buildId
  rw [generateCodesignFiles_valid_unfold env cd projectDir buildId hv]
  refine ⟨fun req hreq => hx.1 req hreq, ?_, ?_⟩
  · intro e he
    rcases hres : (executeGeneration env { cd with clean := some (cd.clean.getD true) }
        projectDir buildId).2 with err | r <;> rw [hres] at he <;> simp at he
    rw [← he]
  · intro r hr
    rcases hres : (executeGeneration env { cd with clean := some (cd.clean.getD true) }
        projectDir buildId).2 with err | r' <;> rw [hres] at hr <;> simp at hr
    subst hr
    exact hx.2 r' hres

/-- C9: for every valid call, an undefined `codesignData.clean` is defaulted
to `true` and the `clean` flag of the request sent to the server equals the
defaulted value; an explicitly provided value (in particular `false`) is passed
through unchanged. -/
theorem generateCodesignFiles_clean_defaulting (env : CodesignEnv) (cd : CodesignData)
    (projectDir buildId : String)
    (hv : validateParameteres (some cd) projectDir = .ok ()) :
    ∃ req, Event.httpSubmit req ∈ (generateCodesignFiles env (some cd) projectDir buildId).1 ∧
      req.clean = some (cd.clean.getD true) ∧
      (cd.clean = none → req.clean = some true) ∧
      ∀ b, cd.clean = some b → req.clean = some b := by
  obtain ⟨rest, hrest⟩ := executeGeneration_trace_head env
    { cd with clean := some (cd.clean.getD true) } projectDir buildId
  refine ⟨prepareCodesignRequest env buildId { cd with clean := some (cd.clean.getD true) }
    (env.getProjectData projectDir), ?_, rfl, ?_, ?_⟩
  · rw [generateCodesignFiles_valid_unfold env cd projectDir buildId hv]
    show Event.httpSubmit _ ∈ (executeGeneration env
      { cd with clean := some (cd.clean.getD true) } projectDir buildId).1
    rw [hrest]
    simp
  · intro h
    simp [prepareCodesignRequest, h]
  · intro b h
    simp [prepareCodesignRequest, h]

/-- C4: when `codesignData` is absent, its `username` or `password` is missing
(falsy), or `projectDir` is empty, `generateCodesignFiles` raises a validation
error before anything else happens: the event trace is empty — in particular
zero HTTP requests occur — and the error carries no `buildId`. -/
theorem generateCodesignFiles_validation_first (env : CodesignEnv)
    (codesignData : Option CodesignData) (projectDir buildId : String)
    (h : codesignData = none
      ∨ (∃ cd, codesignData = some cd ∧
          (jsStrFalsy cd.username = true ∨ jsStrFalsy cd.password = true))
      ∨ projectDir = "") :
    (generateCodesignFiles env codesignData projectDir buildId).1 = [] ∧
    ∃ e, (generateCodesignFiles env codesignData projectDir buildId).2 = .error e ∧
      e.buildId = none ∧
      (e.message = missingCodesignDataMsg ∨ e.message = invalidProjectPathMsg) := by
  have hv : ∃ e : JsError, validateParameteres codesignData projectDir = .error e ∧
      e.buildId = none ∧
      (e.message = missingCodesignDataMsg ∨ e.message = invalidProjectPathMsg) := by
    rcases h with rfl | ⟨cd, rfl, hup⟩ | rfl
    · exact ⟨_, rfl, rfl, Or.inl rfl⟩
    · have hcond : (jsStrFalsy cd.username || jsStrFalsy cd.password) = true := by
        rcases hup with hu | hu <;> simp [hu]
      refine ⟨{ message := missingCodesignDataMsg }, ?_, rfl, Or.inl rfl⟩
      simp [validateParameteres, hcond]
    · cases codesignData with
      | none => exact ⟨_, rfl, rfl, Or.inl rfl⟩
      | some cd =>
        by_cases hup : (jsStrFalsy cd.username || jsStrFalsy cd.password) = true
        · refine ⟨{ message := missingCodesignDataMsg }, ?_, rfl, Or.inl rfl⟩
          simp [validateParameteres, hup]
        · refine ⟨{ message := invalidProjectPathMsg }, ?_, rfl, Or.inr rfl⟩
          simp [validateParameteres, hup]
  obtain ⟨e, he, hb, hm⟩ := hv
  have hg : generateCodesignFiles env codesignData projectDir buildId = ([], .error e) := by
    simp only [generateCodesignFiles, he]
  rw [hg]
  exact ⟨rfl, e, rfl, hb, hm⟩

theorem executeGeneration_403_branch (env : CodesignEnv) (cd : CodesignData)
    (projectDir buildId : String) (resp : ServerResponse) (manifest : BuildServerResult)
    (hsub : env.submitResult = .ok resp)
    (hm : env.s3Object resp.resultUrl = .ok manifest)
    (hempty : jsItemsEmpty manifest.buildItems = true)
    (h403b : strContainsB (jsOrEmpty manifest.errors) "403 Forbidden" = true) :
    (executeGeneration env cd projectDir buildId).2 =
      .error { message := codesignFailedReasonMsg sanitizedUnavailableMsg,
               stderr := manifest.stderr } ∧
    Event.logTrace ("Codesign errors: " ++ jsOrEmpty manifest.errors)
      ∈ (executeGeneration env cd projectDir buildId).1 ∧
    ∀ m, Event.logInfo m ∈ (executeGeneration env cd projectDir buildId).1 →
      m = "Starting " ++ codesignInformationString ++ "." := by
  rcases hw : env.waitResult with ex | u <;>
    simp [executeGeneration, hsub, hw, hm, hempty, h403b]

theorem executeGeneration_empty_items (env : CodesignEnv) (cd : CodesignData)
    (projectDir buildId : String) (resp : ServerResponse) (manifest : BuildServerResult)
    (hsub : env.submitResult = .ok resp)
    (hm : env.s3Object resp.resultUrl = .ok manifest)
    (hempty : jsItemsEmpty manifest.buildItems = true) :
    (∀ o, Event.downloadResults o ∉ (executeGeneration env cd projectDir buildId).1) ∧
    ∃ e, (executeGeneration env cd projectDir buildId).2 = .error e ∧
      e.stderr = manifest.stderr ∧
      (strContainsB (jsOrEmpty manifest.errors) "403 Forbidden" = false →
        e.message = codesignFailedReasonMsg (jsOrEmpty manifest.errors)) := by
  rcases hw : env.waitResult with ex | u <;>
    by_cases h403 : strContainsB (jsOrEmpty manifest.errors) "403 Forbidden" = true <;>
    simp [executeGeneration, hsub, hw, hm, hempty, h403]

/-- C2: when the fetched manifest has a missing or empty `buildItems` list and
its errors text contains "403 Forbidden", the raised error carries exactly the
sanitized message "The Code Signing Assistance service is temporary
unavailable. Please try again later." (wrapped in the codesign-failed reason)
in place of the raw errors text — the message does not contain the raw text —
while the raw text is emitted at trace log level only (it appears in a
trace-level log line and in no info-level log line). -/
theorem generateCodesignFiles_403_sanitizes (env : CodesignEnv) (cd : CodesignData)
    (projectDir buildId : String) (resp : ServerResponse) (manifest : BuildServerResult)
    (hv : validateParameteres (some cd) projectDir = .ok ())
    (hsub : env.submitResult = .ok resp)
    (hm : env.s3Object resp.resultUrl = .ok manifest)
    (hempty : jsItemsEmpty manifest.buildItems = true)
    (h403 : strContains (jsOrEmpty manifest.errors) "403 Forbidden") :
    ∃ e, (generateCodesignFiles env (some cd) projectDir buildId).2 = .error e ∧
      e.message = codesignFailedReasonMsg sanitizedUnavailableMsg ∧
      ¬ strContains e.message (jsOrEmpty manifest.errors) ∧
      Event.logTrace ("Codesign errors: " ++ jsOrEmpty manifest.errors)
        ∈ (generateCodesignFiles env (some cd) projectDir buildId).1 ∧
      ∀ m, Event.logInfo m ∈ (generateCodesignFiles env (some cd) projectDir buildId).1 →
        ¬ strContains m (jsOrEmpty manifest.errors) := by
  have h403b : strContainsB (jsOrEmpty manifest.errors) "403 Forbidden" = true := by
    simpa [strContainsB] using h403
  obtain ⟨hres, hmem, hinfo⟩ := executeGeneration_403_branch env
    { cd with clean := some (cd.clean.getD true) } projectDir buildId resp manifest
    hsub hm hempty h403b
  have h4 : ('4' : Char) ∈ (jsOrEmpty manifest.errors).data :=
    List.IsInfix.subset h403 (by decide)
  rw [generateCodesignFiles_valid_unfold env cd projectDir buildId hv]
  refine ⟨{ message := codesignFailedReasonMsg sanitizedUnavailableMsg,
              stderr := manifest.stderr, buildId := some buildId }, ?_, rfl, ?_, ?_, ?_⟩
  · show (match (executeGeneration env { cd with clean := some (cd.clean.getD true) }
        projectDir buildId).2 with
      | .ok r => Except.ok r
      | .error err => Except.error { err with buildId := some buildId }) = _
    rw [hres]
  · exact not_strContains_of_mem '4' h4
      (show ('4' : Char) ∉ (codesignFailedReasonMsg sanitizedUnavailableMsg).data by decide)
  · exact hmem
  · intro m hmemInfo
    have := hinfo m hmemInfo
    subst this
    exact not_strContains_of_mem '4' h4 (by decide)

/-- C1 (amended): when the fetched manifest has a missing or empty
`buildItems` list, `downloadServerResults` is never invoked and an error is
raised; its message contains the manifest's original errors text whenever that
text does not contain "403 Forbidden" (in the "403 Forbidden" case the message
is the sanitized service-unavailable text instead — see the counterexample). -/
theorem generateCodesignFiles_empty_items_failure (env : CodesignEnv) (cd : CodesignData)
    (projectDir buildId : String) (resp : ServerResponse) (manifest : BuildServerResult)
    (hv : validateParameteres (some cd) projectDir = .ok ())
    (hsub : env.submitResult = .ok resp)
    (hm : env.s3Object resp.resultUrl = .ok manifest)
    (hempty : jsItemsEmpty manifest.buildItems = true) :
    (∀ o, Event.downloadResults o ∉ (generateCodesignFiles env (some cd) projectDir buildId).1) ∧
    ∃ e, (generateCodesignFiles env (some cd) projectDir buildId).2 = .error e ∧
      (¬ strContains (jsOrEmpty manifest.errors) "403 Forbidden" →
        strContains e.message (jsOrEmpty manifest.errors)) := by
  obtain ⟨hnod, e, hres, hstderr, hmsg⟩ := executeGeneration_empty_items env
    { cd with clean := some (cd.clean.getD true) } projectDir buildId resp manifest
    hsub hm hempty
  rw [generateCodesignFiles_valid_unfold env cd projectDir buildId hv]
  constructor
  · exact fun o => hnod o
  · refine ⟨{ e with buildId := some buildId }, ?_, ?_⟩
    · show (match (executeGeneration env { cd with clean := some (cd.clean.getD true) }
          projectDir buildId).2 with
        | .ok r => Except.ok r
        | .error err => Except.error { err with buildId := some buildId }) = _
      rw [hres]
    · intro hno
      have hb : strContainsB (jsOrEmpty manifest.errors) "403 Forbidden" = false := by
        simp [strContainsB]
        exact hno
      show strContains e.message (jsOrEmpty manifest.errors)
      rw [hmsg hb]
      exact codesignFailedReasonMsg_contains _

/-- C3 (amended): when `waitForServerOperationToFinish` fails, one fetch of
the result manifest from `resultUrl` is still attempted and the failure is
logged at trace level, but the polling error is swallowed rather than finally
raised: the outcome of the run equals that of an identical run whose polling
succeeded. -/
theorem generateCodesignFiles_wait_failure_swallowed (env : CodesignEnv) (cd : CodesignData)
    (projectDir buildId : String) (resp : ServerResponse) (ex : JsError)
    (hv : validateParameteres (some cd) projectDir = .ok ())
    (hsub : env.submitResult = .ok resp)
    (hw : env.waitResult = .error ex) :
    Event.fetchS3Object resp.resultUrl
      ∈ (generateCodesignFiles env (some cd) projectDir buildId).1 ∧
    Event.logTrace ("Codesign generation failed with err: " ++ ex.message)
      ∈ (generateCodesignFiles env (some cd) projectDir buildId).1 ∧
    (generateCodesignFiles env (some cd) projectDir buildId).2 =
      (generateCodesignFiles { env with waitResult := .ok () }
        (some cd) projectDir buildId).2 := by
  rw [generateCodesignFiles_valid_unfold env cd projectDir buildId hv,
    generateCodesignFiles_valid_unfold { env with waitResult := .ok () } cd projectDir buildId hv]
  refine ⟨?_, ?_, ?_⟩
  · show Event.fetchS3Object resp.resultUrl ∈ (executeGeneration env
      { cd with clean := some (cd.clean.getD true) } projectDir buildId).1
    simp only [executeGeneration, hsub, hw]
    repeat' split
    all_goals simp
  · show Event.logTrace ("Codesign generation failed with err: " ++ ex.message)
      ∈ (executeGeneration env { cd with clean := some (cd.clean.getD true) }
        projectDir buildId).1
    simp only [executeGeneration, hsub, hw]
    repeat' split
    all_goals simp
  · rw [executeGeneration_result_wait_independent env
      { cd with clean := some (cd.clean.getD true) } projectDir buildId (.ok ())]

theorem getCloudBuildData_configuration (env : BuildCommandEnv) (opts : CloudOptions)
    (platformArg : String) (bd : BuildData)
    (h : getCloudBuildData env opts platformArg = .ok bd) :
    bd.buildConfiguration =
      if opts.release then CLOUD_BUILD_CONFIGURATIONS.RELEASE
      else CLOUD_BUILD_CONFIGURATIONS.DEBUG := by
  simp only [getCloudBuildData] at h
  rcases hv2 : env.validatePlatformName platformArg with e2 | p2 <;> simp only [hv2] at h
  · cases h
  · split at h
    · cases h
    · simp only [Except.ok.injEq] at h
      subst h
      rfl

/-- C10: when the `local` option is not set, `buildForPublishingPlatform`
submits the cloud build with the RELEASE build configuration, overwriting the
configuration `getCloudBuildData` derived from the `release` option — which is
DEBUG whenever `release` is false. -/
theorem buildForPublishingPlatform_forces_release (env : BuildCommandEnv)
    (opts : CloudOptions) (platformArg platform : String) (bd : BuildData)
    (hp : env.validatePlatformName platformArg = .ok platform)
    (hlocal : opts.localOpt = false)
    (hbd : getCloudBuildData env opts platform = .ok bd) :
    (∃ inv, (buildForPublishingPlatform env opts platformArg).1 =
        [BuildSubmission.cloudBuild inv] ∧
      inv.buildConfiguration = CLOUD_BUILD_CONFIGURATIONS.RELEASE ∧
      inv.projectSettings = bd.projectSettings ∧ inv.platform = bd.platform) ∧
    (opts.release = false →
      bd.buildConfiguration = CLOUD_BUILD_CONFIGURATIONS.DEBUG) := by
  constructor
  · refine ⟨{ projectSettings := bd.projectSettings
              platform := bd.platform
              buildConfiguration := CLOUD_BUILD_CONFIGURATIONS.RELEASE
              accountId := opts.accountId
              androidBuildData := bd.androidBuildData
              iOSBuildData := bd.iOSBuildData }, ?_, rfl, rfl, rfl⟩
    simp [buildForPublishingPlatform, hp, hlocal, hbd]
  · intro hrel
    rw [getCloudBuildData_configuration env opts platform bd hbd, hrel]
    simp

theorem buildForPublishingPlatform_forces_release_witness :
    (∃ inv, (buildForPublishingPlatform buildEnvSample optsSample "ios").1 =
        [BuildSubmission.cloudBuild inv] ∧
      inv.buildConfiguration = CLOUD_BUILD_CONFIGURATIONS.RELEASE ∧
      inv.projectSettings = bdSample.projectSettings ∧ inv.platform = bdSample.platform) ∧
    (optsSample.release = false →
      bdSample.buildConfiguration = CLOUD_BUILD_CONFIGURATIONS.DEBUG) :=
  buildForPublishingPlatform_forces_release buildEnvSample optsSample "ios" "iOS" bdSample
    rfl rfl rfl

set_option maxRecDepth 8192 in
/-- C1 counterexample: at a concrete manifest with empty `buildItems` and
errors text "403 Forbidden", an error is raised but its message does not
contain the manifest's original errors text, refuting the claim as stated. -/
theorem generateCodesignFiles_errors_text_counterexample :
    (generateCodesignFiles (mkCodesignEnv (.ok ()) manifest403) (some cdSample)
        "/home/proj" "bid-403").2 =
      .error { message := codesignFailedReasonMsg sanitizedUnavailableMsg,
               stderr := some "server stderr", buildId := some "bid-403" } ∧
    ¬ strContains (codesignFailedReasonMsg sanitizedUnavailableMsg)
      (jsOrEmpty manifest403.errors) :=
  ⟨rfl, by decide⟩

set_option maxRecDepth 8192 in
/-- C3 counterexample: at a concrete run whose polling fails but whose
manifest has build items, `generateCodesignFiles` resolves successfully — the
polling error is never raised to the caller, refuting the claim as stated. -/
theorem generateCodesignFiles_timeout_counterexample :
    (mkCodesignEnv (.error timeoutErr) manifestOk).waitResult = .error timeoutErr ∧
    (generateCodesignFiles (mkCodesignEnv (.error timeoutErr) manifestOk) (some cdSample)
        "/home/proj" "bid-t").2 =
      .ok { buildId := "bid-t", stderr := none, stdout := some "done",
            fullOutput := "full output",
            outputFilesPaths := ["cert.p12", "profile.mobileprovision"] } :=
  ⟨rfl, rfl⟩

set_option maxRecDepth 8192 in
theorem generateCodesignFiles_403_sanitizes_witness :
    ∃ e, (generateCodesignFiles (mkCodesignEnv (.ok ()) manifest403) (some cdSample)
        "/home/proj" "bid-403w").2 = .error e ∧
      e.message = codesignFailedReasonMsg sanitizedUnavailableMsg ∧
      ¬ strContains e.message (jsOrEmpty manifest403.errors) ∧
      Event.logTrace ("Codesign errors: " ++ jsOrEmpty manifest403.errors)
        ∈ (generateCodesignFiles (mkCodesignEnv (.ok ()) manifest403) (some cdSample)
          "/home/proj" "bid-403w").1 ∧
      ∀ m, Event.logInfo m ∈ (generateCodesignFiles (mkCodesignEnv (.ok ()) manifest403)
          (some cdSample) "/home/proj" "bid-403w").1 →
        ¬ strContains m (jsOrEmpty manifest403.errors) :=
  generateCodesignFiles_403_sanitizes (mkCodesignEnv (.ok ()) manifest403) cdSample
    "/home/proj" "bid-403w" { resultUrl := "https://s3/result.json" } manifest403
    rfl rfl rfl rfl (by decide)

set_option maxRecDepth 8192 in
theorem generateCodesignFiles_empty_items_failure_witness :
    (∀ o, Event.downloadResults o ∉
      (generateCodesignFiles (mkCodesignEnv (.ok ()) manifestPlainFail) (some cdSample)
        "/home/proj" "bid-e").1) ∧
    ∃ e, (generateCodesignFiles (mkCodesignEnv (.ok ()) manifestPlainFail) (some cdSample)
        "/home/proj" "bid-e").2 = .error e ∧
      (¬ strContains (jsOrEmpty manifestPlainFail.errors) "403 Forbidden" →
        strContains e.message (jsOrEmpty manifestPlainFail.errors)) :=
  generateCodesignFiles_empty_items_failure (mkCodesignEnv (.ok ()) manifestPlainFail)
    cdSample "/home/proj" "bid-e" { resultUrl := "https://s3/result.json" }
    manifestPlainFail rfl rfl rfl rfl

set_option maxRecDepth 8192 in
theorem generateCodesignFiles_wait_failure_swallowed_witness :
    Event.fetchS3Object "https://s3/result.json"
      ∈ (generateCodesignFiles (mkCodesignEnv (.error timeoutErr) manifestOk) (some cdSample)
        "/home/proj" "bid-w").1 ∧
    Event.logTrace ("Codesign generation failed with err: " ++ timeoutErr.message)
      ∈ (generateCodesignFiles (mkCodesignEnv (.error timeoutErr) manifestOk) (some cdSample)
        "/home/proj" "bid-w").1 ∧
    (generateCodesignFiles (mkCodesignEnv (.error timeoutErr) manifestOk) (some cdSample)
        "/home/proj" "bid-w").2 =
      (generateCodesignFiles { mkCodesignEnv (.error timeoutErr) manifestOk with
        waitResult := .ok () } (some cdSample) "/home/proj" "bid-w").2 :=
  generateCodesignFiles_wait_failure_swallowed (mkCodesignEnv (.error timeoutErr) manifestOk)
    cdSample "/home/proj" "bid-w" { resultUrl := "https://s3/result.json" } timeoutErr
    rfl rfl rfl

set_option maxRecDepth 8192 in
theorem generateCodesignFiles_validation_first_witness :
    (generateCodesignFiles (mkCodesignEnv (.ok ()) manifestOk) none "/home/proj" "bid-v").1 =
      [] ∧
    ∃ e, (generateCodesignFiles (mkCodesignEnv (.ok ()) manifestOk) none
        "/home/proj" "bid-v").2 = .error e ∧
      e.buildId = none ∧
      (e.message = missingCodesignDataMsg ∨ e.message = invalidProjectPathMsg) :=
  generateCodesignFiles_validation_first (mkCodesignEnv (.ok ()) manifestOk) none
    "/home/proj" "bid-v" (Or.inl rfl)

set_option maxRecDepth 8192 in
theorem generateCodesignFiles_buildId_invariant_witness :
    (∀ req, Event.httpSubmit req ∈ (generateCodesignFiles (mkCodesignEnv (.ok ()) manifestOk)
        (some cdSample) "/home/proj" "bid-5").1 → req.buildId = "bid-5") ∧
    (∀ e, (generateCodesignFiles (mkCodesignEnv (.ok ()) manifestOk) (some cdSample)
        "/home/proj" "bid-5").2 = .error e → e.buildId = some "bid-5") ∧
    (∀ r, (generateCodesignFiles (mkCodesignEnv (.ok ()) manifestOk) (some cdSample)
        "/home/proj" "bid-5").2 = .ok r → r.buildId = "bid-5") :=
  generateCodesignFiles_buildId_invariant (mkCodesignEnv (.ok ()) manifestOk) cdSample
    "/home/proj" "bid-5" rfl

set_option maxRecDepth 8192 in
theorem generateCodesignFiles_clean_defaulting_witness :
    ∃ req, Event.httpSubmit req ∈ (generateCodesignFiles (mkCodesignEnv (.ok ()) manifestOk)
        (some cdSample) "/home/proj" "bid-9").1 ∧
      req.clean = some (cdSample.clean.getD true) ∧
      (cdSample.clean = none → req.clean = some true) ∧
      ∀ b, cdSample.clean = some b → req.clean = some b :=
  generateCodesignFiles_clean_defaulting (mkCodesignEnv (.ok ()) manifestOk) cdSample
    "/home/proj" "bid-9" rfl
